import Mathlib

/-!
Shallow embedding of `packages/gatsby-plugin-sharp/src/image-data.ts`.

JavaScript numbers are modelled as rationals (`ℚ`), so arithmetic is exact;
`Math.round` becomes `jsRound`.  Optional numeric/string arguments are
`Option ℚ` / `Option String`, and JavaScript truthiness (`x && y`, `x || y`)
is modelled explicitly: `0`, `""` and `undefined` are falsy.  External
collaborators (`calculateImageSizes`, `batchQueueImageResizing`, `getSrcSet`,
`getSizes`, `base64`, `traceSVG`, the sharp probes) are parameters of an
environment structure.  The process-wide metadata cache and the number of
probe/statistics invocations are threaded as explicit state.  A dereference
of `undefined` (JavaScript `TypeError`) is modelled by `Except.error`.
-/

/-- JavaScript `Math.round`: round half toward positive infinity. -/
def jsRound (q : ℚ) : ℤ := ⌊q + 1/2⌋

/-- JS truthiness of an optional number: `undefined` and `0` are falsy. -/
def truthyNum : Option ℚ → Bool
  | none => false
  | some x => x != 0

/-- JS `a || b` for a (present) number `a`: `0` falls through to `b`. -/
def jsQOr (x d : ℚ) : ℚ := if x == 0 then d else x

/-- JS `a || b` for an optional number `a`: `undefined` and `0` fall through. -/
def jsNumOr (x : Option ℚ) (d : ℚ) : ℚ :=
  match x with
  | none => d
  | some v => jsQOr v d

/-- JS `a || b` for an optional string `a`: `undefined` and `""` fall through. -/
def jsStrOr (x : Option String) (d : String) : String :=
  match x with
  | none => d
  | some v => if v == "" then d else v

/-- Layout argument `layout`: `"fixed" | "fluid" | "constrained"`. -/
inductive Layout
  | fixed
  | fluid
  | constrained
deriving DecidableEq, Repr

/-- Fit argument `fit`: `"contain" | "cover" | "fill" | "inside" | "outside"`. -/
inductive Fit
  | contain
  | cover
  | fill
  | inside
  | outside
deriving DecidableEq, Repr

/-- Placeholder argument `placeholder`: `"tracedSVG" | "dominantColor" | "blurred" | "none"`. -/
inductive PlaceholderKind
  | tracedSVG
  | dominantColor
  | blurred
  | none
deriving DecidableEq, Repr

/-- JS `Array.prototype.findIndex`, with `-1` (not found) modelled as `none`. -/
def jsFindIndex {α : Type} (p : α → Bool) : List α → Option ℕ
  | [] => none
  | x :: xs => if p x then some 0 else (jsFindIndex p xs).map (· + 1)

/-- JS indexing `arr[i]` by a `findIndex` result: out of range gives `undefined`. -/
def jsIndex {α : Type} (l : List α) : Option ℕ → Option α
  | none => none
  | some i => l.get? i

/-- Arguments record `ISharpGatsbyImageArgs`: the user-supplied request (all fields optional). -/
structure ISharpGatsbyImageArgs where
  layout : Option Layout := none
  placeholder : Option PlaceholderKind := none
  width : Option ℚ := none
  height : Option ℚ := none
  maxWidth : Option ℚ := none
  maxHeight : Option ℚ := none
  fit : Option Fit := none
  toFormat : Option String := none
  webP : Bool := false
  sizes : Option String := none
  base64Width : Option ℚ := none
  base64Height : Option ℚ := none
deriving Repr

/-- Metadata record `IImageMetadata`. -/
structure IImageMetadata where
  width : ℚ
  height : ℚ
  format : String
  density : Option String := none
  dominantColor : Option String := none
deriving DecidableEq, Repr

/-- File node `FileNode`: only the fields the source reads. -/
structure FileNode where
  absolutePath : Option String := none
  contentDigest : String
deriving Repr

/--
Decision table `getOutputAspectRatio(args, metadata)` (lines 77–104).
`layout` defaults to `fixed`, `fit` to `cover`; `height && width` and
`maxWidth && maxHeight` are JS truthiness tests.
-/
def getOutputAspectRatio (args : ISharpGatsbyImageArgs) (metadata : IImageMetadata) : ℚ :=
  let layout := args.layout.getD Layout.fixed
  let fit := args.fit.getD Fit.cover
  if fit = Fit.inside ∨ fit = Fit.outside then
    metadata.width / metadata.height
  else if truthyNum args.height && truthyNum args.width && (layout == Layout.fixed) then
    args.width.getD 0 / args.height.getD 0
  else if truthyNum args.maxWidth && truthyNum args.maxHeight && !(layout == Layout.fixed) then
    args.maxWidth.getD 0 / args.maxHeight.getD 0
  else
    metadata.width / metadata.height

/-- Result of `calculateImageSizes` (external sizing collaborator). -/
structure ImageSizes where
  sizes : List ℚ
  presentationWidth : ℚ
  presentationHeight : ℚ
  aspectRatio : ℚ
deriving Repr

/-- One transform descriptor handed to the resize collaborator. -/
structure TransformObj where
  width : ℤ
  height : ℤ
  toFormat : String
deriving DecidableEq, Repr

/--
Modelled from the spec: `createTransformObject` comes from `./plugin-options`,
which is not part of the provided source; per §3 a `VariantSpec` is
`{ width, height, format }`, one row of the plan, so the transform is modelled
as packing exactly the fields the call site sets (width, height, toFormat).
-/
def createTransformObject (width height : ℤ) (toFormat : String) : TransformObj :=
  { width := width, height := height, toFormat := toFormat }

/--
The variant-plan map of `generateImageData` (lines 133–142, and again at
176–185 with `toFormat` forced to `"webp"`): for each target width, round the
width, then derive the height from the rounded width and the aspect ratio.
-/
def planTransforms (sizes : List ℚ) (aspectRatio : ℚ) (toFormat : String) :
    List TransformObj :=
  sizes.map fun outputWidth =>
    let width := jsRound outputWidth
    createTransformObject width (jsRound ((width : ℚ) / aspectRatio)) toFormat

-- Sanity checks of the JS-number model.
example : jsRound (100.4 : ℚ) = 100 := by norm_num [jsRound]
example : jsRound (200.6 : ℚ) = 201 := by norm_num [jsRound]
example : jsRound ((201 : ℚ) / 2) = 101 := by norm_num [jsRound]

/-- A 0–15 value as a lowercase hex digit. -/
def hexDigit (n : ℕ) : Char :=
  if n < 10 then Char.ofNat (48 + n) else Char.ofNat (87 + n)

/-- A byte as two hex digits. -/
def toHex2 (n : ℕ) : String := String.mk [hexDigit (n / 16 % 16), hexDigit (n % 16)]

/--
Modelled from the spec: `rgbToHex` comes from `./utils`, which is not part of
the provided source; §6 specifies `colorCollaborator.rgbToHex(r,g,b) ->
"#rrggbb"`, a 6-digit hex conversion of the three channel values.
-/
def rgbToHex (r g b : ℕ) : String := "#" ++ toHex2 r ++ toHex2 g ++ toHex2 b

example : rgbToHex 0 0 0 = "#000000" := by decide
example : rgbToHex 255 128 7 = "#ff8007" := by decide

/-- Result of `getImageSizeAsync` (cheap size probe). -/
structure SizeResult where
  width : ℚ
  height : ℚ
  type : String
deriving Repr

/-- Result of `sharp(path).metadata()` (full metadata probe). -/
structure ProbeResult where
  width : ℚ
  height : ℚ
  density : Option String := none
  format : String
deriving Repr

/-- The `dominant` field of `sharp(path).stats()`, when sharp supports it. -/
structure DominantRGB where
  r : ℕ
  g : ℕ
  b : ℕ
deriving Repr

/-- External collaborators of `getImageMetadata`, plus the test-mode flag. -/
structure MetaEnv where
  getImageSizeAsync : FileNode → SizeResult
  probeMetadata : Option String → ProbeResult
  probeStats : Option String → Option DominantRGB
  nodeEnvIsTest : Bool

/--
Observable state of the metadata resolver: the process-wide `metadataCache`
(newest entry first; `Map.set`/`Map.get` are modelled by cons and
first-match lookup), plus counters of the external probe calls made.
-/
structure MetaState where
  cache : List (String × IImageMetadata) := []
  sizeProbes : ℕ := 0
  metadataProbes : ℕ := 0
  statsCalls : ℕ := 0
deriving Repr

/-- Lookup `metadataCache.get`: first-match lookup by key. -/
def cacheGet (cache : List (String × IImageMetadata)) (k : String) :
    Option IImageMetadata :=
  (cache.find? fun p => p.1 == k).map Prod.snd

/--
Metadata resolver `getImageMetadata(file, getDominantColor)` (lines 35–61).  Without
`getDominantColor` it answers from the cheap size probe; otherwise it
consults the cache (bypassed when `NODE_ENV === "test"`), and on a miss runs
the metadata probe and pixel statistics, converts the dominant color to hex
(falling back to `#000000`), stores the record and returns it.
-/
def getImageMetadata (env : MetaEnv) (file : FileNode) (getDominantColor : Bool)
    (s : MetaState) : IImageMetadata × MetaState :=
  if !getDominantColor then
    let r := env.getImageSizeAsync file
    ({ width := r.width, height := r.height, format := r.type },
     { s with sizeProbes := s.sizeProbes + 1 })
  else
    match cacheGet s.cache file.contentDigest, env.nodeEnvIsTest with
    | some metadata, false => (metadata, s)
    | _, _ =>
      let p := env.probeMetadata file.absolutePath
      let dominant := env.probeStats file.absolutePath
      let dominantColor :=
        match dominant with
        | some c => rgbToHex c.r c.g c.b
        | none => "#000000"
      let metadata : IImageMetadata :=
        { width := p.width, height := p.height, density := p.density,
          format := p.format, dominantColor := some dominantColor }
      (metadata,
       { s with cache := (file.contentDigest, metadata) :: s.cache,
                metadataProbes := s.metadataProbes + 1,
                statsCalls := s.statsCalls + 1 })

/-- Encoded image `EncodedImage`: one result of the external resize collaborator. -/
structure EncodedImage where
  src : String
  width : ℚ
  height : ℚ
  aspectRatio : Option ℚ := none
  format : String := ""
deriving DecidableEq, Repr

/-- The `images.fallback` entry of the final descriptor. -/
structure ImageFallback where
  src : String
  srcSet : String
  sizes : String
deriving DecidableEq, Repr

/-- One `images.sources[]` entry of the final descriptor. -/
structure ImageSourceEntry where
  srcSet : String
  type : String
  sizes : String
deriving DecidableEq, Repr

/-- The `images` field of the final descriptor. -/
structure ImagesField where
  fallback : ImageFallback
  sources : List ImageSourceEntry
deriving DecidableEq, Repr

/-- The `placeholder` payload of the final descriptor. -/
structure PlaceholderField where
  fallback : String
deriving DecidableEq, Repr

/-- Descriptor `ISharpGatsbyImageData`: the final output. -/
structure ISharpGatsbyImageData where
  layout : Layout
  placeholder : Option PlaceholderField
  images : ImagesField
  backgroundColor : Option String := none
  width : Option ℚ := none
  height : Option ℚ := none
deriving DecidableEq, Repr

/-- A thrown JavaScript runtime error (here: property access on `undefined`). -/
inductive JsError
  | typeError
deriving DecidableEq, Repr

/-- External collaborators of `generateImageData`. -/
structure GenEnv where
  menv : MetaEnv
  calculateImageSizes : ISharpGatsbyImageArgs → Layout → IImageMetadata → ImageSizes
  batchQueueImageResizing : List TransformObj → List EncodedImage
  getSrcSet : List EncodedImage → String
  getSizes : ℚ → String
  base64 : ISharpGatsbyImageArgs → String
  traceSVG : ISharpGatsbyImageArgs → String

/--
Descriptor generator `generateImageData` (lines 106–244).  `layout` defaults to `fixed`,
`placeholder` to `dominantColor`.  The primary image is `images[primaryIndex]`
where `primaryIndex` is the `findIndex` of the presentation width in the raw
target-width list (`-1`, i.e. `none`, when absent); after the empty-list
early return, `primaryImage.src` is read while building the descriptor, which
throws a `TypeError` when `primaryImage` is `undefined`.
-/
def generateImageData (env : GenEnv) (file : FileNode) (args : ISharpGatsbyImageArgs)
    (s : MetaState) : Except JsError (Option ISharpGatsbyImageData) × MetaState :=
  let layout := args.layout.getD Layout.fixed
  let placeholder := args.placeholder.getD PlaceholderKind.dominantColor
  let md := getImageMetadata env.menv file (placeholder == PlaceholderKind.dominantColor) s
  let metadata := md.1
  let s1 := md.2
  let imageSizes := env.calculateImageSizes args layout metadata
  let transforms := planTransforms imageSizes.sizes imageSizes.aspectRatio
      (jsStrOr args.toFormat metadata.format)
  let images := env.batchQueueImageResizing transforms
  let srcSet := env.getSrcSet images
  let sizes := jsStrOr args.sizes (env.getSizes imageSizes.presentationWidth)
  let primaryIndex := jsFindIndex (fun size => size == imageSizes.presentationWidth) imageSizes.sizes
  let primaryImage := jsIndex images primaryIndex
  if images.isEmpty then (Except.ok none, s1)
  else
    match primaryImage with
    | none => (Except.error JsError.typeError, s1)
    | some primary =>
      let props0 : ISharpGatsbyImageData :=
        { layout := layout
          placeholder := none
          images := { fallback := { src := primary.src, srcSet := srcSet, sizes := sizes },
                      sources := [] } }
      let props1 :=
        if args.webP then
          let webpTransforms := planTransforms imageSizes.sizes imageSizes.aspectRatio "webp"
          let webpImages := env.batchQueueImageResizing webpTransforms
          let webpSrcSet := env.getSrcSet webpImages
          { props0 with images := { props0.images with
              sources := props0.images.sources ++
                [{ srcSet := webpSrcSet, type := "image/webp", sizes := sizes }] } }
        else props0
      let props2 :=
        if placeholder == PlaceholderKind.blurred then
          let base64Args := { args with width := args.base64Width, height := args.base64Height }
          { props1 with placeholder := some { fallback := env.base64 base64Args } }
        else if placeholder == PlaceholderKind.tracedSVG then
          { props1 with placeholder := some { fallback := env.traceSVG args } }
        else
          match metadata.dominantColor with
          | some c => if c == "" then props1 else { props1 with backgroundColor := some c }
          | none => props1
      let aspectRatio := jsNumOr primary.aspectRatio 1
      let props3 :=
        match layout with
        | Layout.fixed =>
          { props2 with width := some primary.width, height := some primary.height }
        | Layout.fluid =>
          { props2 with width := some 1, height := some (1 / aspectRatio) }
        | Layout.constrained =>
          let w := jsNumOr args.maxWidth (jsQOr primary.width 1)
          { props2 with width := some w, height := some (jsQOr w 1 / aspectRatio) }
      (Except.ok (some props3), s1)

/-! ## Helper lemmas -/

/-- Finding lemma: `jsFindIndex` finds nothing when the predicate fails everywhere. -/
theorem jsFindIndex_eq_none {α : Type} (p : α → Bool) (l : List α)
    (h : ∀ x ∈ l, p x = false) : jsFindIndex p l = none := by
  induction l with
  | nil => rfl
  | cons x xs ih =>
    simp only [jsFindIndex, h x (List.mem_cons_self x xs)]
    simp [ih fun y hy => h y (List.mem_cons_of_mem x hy)]

/-- Abbreviation for the record built on the probing (cache-miss) path of
`getImageMetadata`; used only to state equation lemmas. -/
def probedMetadata (env : MetaEnv) (file : FileNode) : IImageMetadata :=
  { width := (env.probeMetadata file.absolutePath).width,
    height := (env.probeMetadata file.absolutePath).height,
    format := (env.probeMetadata file.absolutePath).format,
    density := (env.probeMetadata file.absolutePath).density,
    dominantColor := some (match env.probeStats file.absolutePath with
      | some c => rgbToHex c.r c.g c.b
      | none => "#000000") }

/-- Equation lemma: a cache hit outside test mode returns the cached record
and leaves the state untouched. -/
theorem getImageMetadata_cache_hit (env : MetaEnv) (file : FileNode) (s : MetaState)
    (m : IImageMetadata) (h : cacheGet s.cache file.contentDigest = some m)
    (ht : env.nodeEnvIsTest = false) :
    getImageMetadata env file true s = (m, s) := by
  unfold getImageMetadata
  rw [h, ht]
  rfl

/-- Equation lemma: a cache miss probes, computes the dominant color, stores
the record and bumps the probe/statistics counters. -/
theorem getImageMetadata_cache_miss (env : MetaEnv) (file : FileNode) (s : MetaState)
    (h : cacheGet s.cache file.contentDigest = none) :
    getImageMetadata env file true s =
      (probedMetadata env file,
       { s with cache := (file.contentDigest, probedMetadata env file) :: s.cache,
                metadataProbes := s.metadataProbes + 1,
                statsCalls := s.statsCalls + 1 }) := by
  unfold getImageMetadata probedMetadata
  rw [h]
  rfl

/-- Looking the key of the newest cache entry up yields that entry. -/
theorem cacheGet_cons_self (cache : List (String × IImageMetadata)) (k : String)
    (m : IImageMetadata) : cacheGet ((k, m) :: cache) k = some m := by
  simp [cacheGet, List.find?]

/-! ## Claims -/

/-- C6: for all metadata whose width equals its height (both positive per
the data model), `getOutputAspectRatio` returns `1` under every layout/fit
combination of the layout arguments. -/
theorem c6_square_metadata_gives_ratio_one (layout : Option Layout) (fit : Option Fit)
    (metadata : IImageMetadata) (hsq : metadata.width = metadata.height)
    (hpos : metadata.height ≠ 0) :
    getOutputAspectRatio { layout := layout, fit := fit } metadata = 1 := by
  unfold getOutputAspectRatio
  simp only [truthyNum]
  split_ifs <;> simp_all [div_self]

/-- Witness for C6 at a concrete square metadata record. -/
theorem c6_square_metadata_gives_ratio_one_witness :
    ((5 : ℚ) = 5 ∧ (5 : ℚ) ≠ 0) ∧
    getOutputAspectRatio { layout := some Layout.fluid, fit := some Fit.contain }
      { width := 5, height := 5, format := "png" } = 1 :=
  ⟨⟨rfl, by norm_num⟩,
   c6_square_metadata_gives_ratio_one (some Layout.fluid) (some Fit.contain)
     { width := 5, height := 5, format := "png" } rfl (by norm_num)⟩

/-- C7: whenever `fit` is `inside` or `outside`, `getOutputAspectRatio`
returns `metadata.width / metadata.height` for every layout mode and
regardless of any explicit `width`, `height`, `maxWidth`, `maxHeight`. -/
theorem c7_inside_outside_gives_source_ratio (args : ISharpGatsbyImageArgs)
    (metadata : IImageMetadata)
    (h : args.fit = some Fit.inside ∨ args.fit = some Fit.outside) :
    getOutputAspectRatio args metadata = metadata.width / metadata.height := by
  unfold getOutputAspectRatio
  rcases h with h | h <;> simp [h]

/-- Witness for C7 with `fit=inside` and all explicit dimensions set. -/
theorem c7_inside_outside_gives_source_ratio_witness :
    ({ layout := some Layout.constrained, fit := some Fit.inside, width := some 10,
       height := some 20, maxWidth := some 30, maxHeight := some 40 } :
        ISharpGatsbyImageArgs).fit = some Fit.inside ∧
    getOutputAspectRatio
      { layout := some Layout.constrained, fit := some Fit.inside, width := some 10,
        height := some 20, maxWidth := some 30, maxHeight := some 40 }
      { width := 6, height := 4, format := "png" } = (6 : ℚ) / 4 :=
  ⟨rfl,
   c7_inside_outside_gives_source_ratio
     { layout := some Layout.constrained, fit := some Fit.inside, width := some 10,
       height := some 20, maxWidth := some 30, maxHeight := some 40 }
     { width := 6, height := 4, format := "png" } (Or.inl rfl)⟩

/-- C2: the variant plan has one entry per target width, in input order,
with output width `round(w)` and output height `round(round(w)/aspectRatio)`
(height derived from the rounded width); in particular for target widths
`[100.4, 200.6]` and aspect ratio `2` the dimensions are
`[{w:100,h:50}, {w:201,h:101}]`. -/
theorem c2_variant_plan_rounding (sizes : List ℚ) (aspectRatio : ℚ) (fmt : String) :
    (planTransforms sizes aspectRatio fmt).length = sizes.length ∧
    (∀ i w, sizes.get? i = some w →
      (planTransforms sizes aspectRatio fmt).get? i =
        some (createTransformObject (jsRound w)
          (jsRound ((jsRound w : ℚ) / aspectRatio)) fmt)) ∧
    planTransforms [100.4, 200.6] 2 fmt =
      [{ width := 100, height := 50, toFormat := fmt },
       { width := 201, height := 101, toFormat := fmt }] := by
  refine ⟨by simp [planTransforms], ?_, ?_⟩
  · intro i w hw
    rw [List.get?_eq_getElem?] at hw
    simp [planTransforms, List.get?_eq_getElem?, List.getElem?_map, hw]
  · norm_num [planTransforms, jsRound, createTransformObject]

/-- Witness for C2: the second plan entry for `[100.4, 200.6]`. -/
theorem c2_variant_plan_rounding_witness :
    ([100.4, 200.6] : List ℚ).get? 1 = some 200.6 ∧
    (planTransforms [100.4, 200.6] 2 "jpg").get? 1 =
      some (createTransformObject (jsRound 200.6)
        (jsRound ((jsRound 200.6 : ℚ) / 2)) "jpg") :=
  ⟨rfl, (c2_variant_plan_rounding [100.4, 200.6] 2 "jpg").2.1 1 200.6 rfl⟩

/-- C9: on a computing pass of `getImageMetadata` with dominant-color
computation enabled (cache miss), a statistics result with no dominant color
resolves `dominantColor` to exactly `"#000000"`; otherwise to the 6-digit hex
conversion of the dominant r, g, b values. -/
theorem c9_dominant_color_hex_or_fallback (env : MetaEnv) (file : FileNode) (s : MetaState)
    (hmiss : cacheGet s.cache file.contentDigest = none) :
    ((env.probeStats file.absolutePath = none →
        (getImageMetadata env file true s).1.dominantColor = some "#000000") ∧
     (∀ c, env.probeStats file.absolutePath = some c →
        (getImageMetadata env file true s).1.dominantColor =
          some (rgbToHex c.r c.g c.b))) := by
  constructor
  · intro h
    simp [getImageMetadata, hmiss, h]
  · intro c h
    simp [getImageMetadata, hmiss, h]

/-- Witness for C9: a stats probe with no dominant field yields `#000000`. -/
theorem c9_dominant_color_hex_or_fallback_witness :
    cacheGet ({} : MetaState).cache "digest-1" = none ∧
    (getImageMetadata
      { getImageSizeAsync := fun _ => { width := 8, height := 4, type := "png" },
        probeMetadata := fun _ => { width := 8, height := 4, format := "png" },
        probeStats := fun _ => none,
        nodeEnvIsTest := false }
      { absolutePath := some "/a/b.png", contentDigest := "digest-1" }
      true {}).1.dominantColor = some "#000000" :=
  ⟨rfl,
   (c9_dominant_color_hex_or_fallback
      { getImageSizeAsync := fun _ => { width := 8, height := 4, type := "png" },
        probeMetadata := fun _ => { width := 8, height := 4, format := "png" },
        probeStats := fun _ => none,
        nodeEnvIsTest := false }
      { absolutePath := some "/a/b.png", contentDigest := "digest-1" }
      {} rfl).1 rfl⟩

/-- C10: `getImageMetadata` without `needDominantColor` answers from the
cheap size probe and leaves the cache untouched, and any record in the cache
after any call has its `dominantColor` field populated (the only cache write
stores the computed hex or the `#000000` fallback). -/
theorem c10_cached_records_have_dominant_color (env : MetaEnv) (file : FileNode)
    (b : Bool) (s : MetaState)
    (hinv : ∀ p ∈ s.cache, ∃ c, p.2.dominantColor = some c) :
    ((getImageMetadata env file false s).1 =
        { width := (env.getImageSizeAsync file).width,
          height := (env.getImageSizeAsync file).height,
          format := (env.getImageSizeAsync file).type } ∧
     (getImageMetadata env file false s).2.cache = s.cache ∧
     ∀ p ∈ (getImageMetadata env file b s).2.cache, ∃ c, p.2.dominantColor = some c) := by
  refine ⟨by simp [getImageMetadata], by simp [getImageMetadata], ?_⟩
  cases b with
  | false => simpa [getImageMetadata] using hinv
  | true =>
    unfold getImageMetadata
    simp only [Bool.not_true, Bool.false_eq_true, if_false]
    split
    · exact hinv
    · intro p hp
      rcases List.mem_cons.mp hp with h | h
      · exact ⟨_, by rw [h]⟩
      · exact hinv p h

/-- Witness for C10 on an empty cache with a dominant-color computing call. -/
theorem c10_cached_records_have_dominant_color_witness :
    (∀ p ∈ ({} : MetaState).cache, ∃ c, p.2.dominantColor = some c) ∧
    ((getImageMetadata
        { getImageSizeAsync := fun _ => { width := 8, height := 4, type := "png" },
          probeMetadata := fun _ => { width := 8, height := 4, format := "png" },
          probeStats := fun _ => some { r := 255, g := 128, b := 7 },
          nodeEnvIsTest := false }
        { absolutePath := some "/a/b.png", contentDigest := "digest-1" }
        false {}).1 =
       { width := 8, height := 4, format := "png" } ∧
     (getImageMetadata
        { getImageSizeAsync := fun _ => { width := 8, height := 4, type := "png" },
          probeMetadata := fun _ => { width := 8, height := 4, format := "png" },
          probeStats := fun _ => some { r := 255, g := 128, b := 7 },
          nodeEnvIsTest := false }
        { absolutePath := some "/a/b.png", contentDigest := "digest-1" }
        false {}).2.cache = ({} : MetaState).cache ∧
     ∀ p ∈ (getImageMetadata
        { getImageSizeAsync := fun _ => { width := 8, height := 4, type := "png" },
          probeMetadata := fun _ => { width := 8, height := 4, format := "png" },
          probeStats := fun _ => some { r := 255, g := 128, b := 7 },
          nodeEnvIsTest := false }
        { absolutePath := some "/a/b.png", contentDigest := "digest-1" }
        true {}).2.cache, ∃ c, p.2.dominantColor = some c) :=
  ⟨by simp,
   c10_cached_records_have_dominant_color
     { getImageSizeAsync := fun _ => { width := 8, height := 4, type := "png" },
       probeMetadata := fun _ => { width := 8, height := 4, format := "png" },
       probeStats := fun _ => some { r := 255, g := 128, b := 7 },
       nodeEnvIsTest := false }
     { absolutePath := some "/a/b.png", contentDigest := "digest-1" }
     true {} (by simp)⟩

/-- C4: `getImageMetadata` with `needDominantColor=true` leaves the
computed record in the process-wide cache under the file's content digest, and
outside test mode a second resolution of the same digest returns the identical
record with the state (probe and statistics counters included) unchanged — no
second probe or statistics computation. -/
theorem c4_metadata_cache_round_trip (env : MetaEnv) (file : FileNode) (s : MetaState)
    (htest : env.nodeEnvIsTest = false) :
    (cacheGet (getImageMetadata env file true s).2.cache file.contentDigest =
        some (getImageMetadata env file true s).1 ∧
     getImageMetadata env file true (getImageMetadata env file true s).2 =
        ((getImageMetadata env file true s).1, (getImageMetadata env file true s).2)) := by
  rcases h : cacheGet s.cache file.contentDigest with _ | m
  · rw [getImageMetadata_cache_miss env file s h]
    exact ⟨cacheGet_cons_self _ _ _,
           getImageMetadata_cache_hit _ _ _ _ (cacheGet_cons_self _ _ _) htest⟩
  · rw [getImageMetadata_cache_hit env file s m h htest]
    exact ⟨h, getImageMetadata_cache_hit env file s m h htest⟩

/-- Witness for C4 starting from an empty cache. -/
theorem c4_metadata_cache_round_trip_witness :
    (({ getImageSizeAsync := fun _ => { width := 8, height := 4, type := "png" },
        probeMetadata := fun _ => { width := 8, height := 4, format := "png" },
        probeStats := fun _ => none,
        nodeEnvIsTest := false } : MetaEnv).nodeEnvIsTest = false) ∧
    (cacheGet (getImageMetadata
        { getImageSizeAsync := fun _ => { width := 8, height := 4, type := "png" },
          probeMetadata := fun _ => { width := 8, height := 4, format := "png" },
          probeStats := fun _ => none,
          nodeEnvIsTest := false }
        { absolutePath := some "/a/b.png", contentDigest := "digest-1" }
        true {}).2.cache "digest-1" =
      some (getImageMetadata
        { getImageSizeAsync := fun _ => { width := 8, height := 4, type := "png" },
          probeMetadata := fun _ => { width := 8, height := 4, format := "png" },
          probeStats := fun _ => none,
          nodeEnvIsTest := false }
        { absolutePath := some "/a/b.png", contentDigest := "digest-1" }
        true {}).1 ∧
     getImageMetadata
        { getImageSizeAsync := fun _ => { width := 8, height := 4, type := "png" },
          probeMetadata := fun _ => { width := 8, height := 4, format := "png" },
          probeStats := fun _ => none,
          nodeEnvIsTest := false }
        { absolutePath := some "/a/b.png", contentDigest := "digest-1" }
        true (getImageMetadata
          { getImageSizeAsync := fun _ => { width := 8, height := 4, type := "png" },
            probeMetadata := fun _ => { width := 8, height := 4, format := "png" },
            probeStats := fun _ => none,
            nodeEnvIsTest := false }
          { absolutePath := some "/a/b.png", contentDigest := "digest-1" }
          true {}).2 =
       ((getImageMetadata
          { getImageSizeAsync := fun _ => { width := 8, height := 4, type := "png" },
            probeMetadata := fun _ => { width := 8, height := 4, format := "png" },
            probeStats := fun _ => none,
            nodeEnvIsTest := false }
          { absolutePath := some "/a/b.png", contentDigest := "digest-1" }
          true {}).1,
        (getImageMetadata
          { getImageSizeAsync := fun _ => { width := 8, height := 4, type := "png" },
            probeMetadata := fun _ => { width := 8, height := 4, format := "png" },
            probeStats := fun _ => none,
            nodeEnvIsTest := false }
          { absolutePath := some "/a/b.png", contentDigest := "digest-1" }
          true {}).2)) :=
  ⟨rfl,
   c4_metadata_cache_round_trip
     { getImageSizeAsync := fun _ => { width := 8, height := 4, type := "png" },
       probeMetadata := fun _ => { width := 8, height := 4, format := "png" },
       probeStats := fun _ => none,
       nodeEnvIsTest := false }
     { absolutePath := some "/a/b.png", contentDigest := "digest-1" }
     {} rfl⟩

/-- A concrete file node for the `generateImageData` witnesses. -/
def fileA : FileNode := { absolutePath := some "/img.png", contentDigest := "d0" }

/-- A concrete metadata environment for the `generateImageData` witnesses. -/
def metaEnvA : MetaEnv :=
  { getImageSizeAsync := fun _ => { width := 4, height := 2, type := "png" },
    probeMetadata := fun _ => { width := 4, height := 2, format := "png" },
    probeStats := fun _ => none,
    nodeEnvIsTest := false }

/-- A concrete encoded image for the `generateImageData` witnesses. -/
def imgA : EncodedImage :=
  { src := "u1", width := 4, height := 2, aspectRatio := some 2, format := "png" }

/-- Environment whose resize collaborator yields one image but whose sizing
collaborator reports a presentation width matching no target width. -/
def envNoMatch : GenEnv :=
  { menv := metaEnvA,
    calculateImageSizes := fun _ _ _ =>
      { sizes := [1, 2], presentationWidth := 3, presentationHeight := 2, aspectRatio := 2 },
    batchQueueImageResizing := fun _ => [imgA],
    getSrcSet := fun _ => "srcset",
    getSizes := fun _ => "sizes",
    base64 := fun _ => "b64",
    traceSVG := fun _ => "svg" }

/-- Environment whose resize collaborator yields the empty list. -/
def envEmptyResize : GenEnv :=
  { menv := metaEnvA,
    calculateImageSizes := fun _ _ _ =>
      { sizes := [2, 4], presentationWidth := 4, presentationHeight := 2, aspectRatio := 2 },
    batchQueueImageResizing := fun _ => [],
    getSrcSet := fun _ => "srcset",
    getSizes := fun _ => "sizes",
    base64 := fun _ => "b64",
    traceSVG := fun _ => "svg" }

/-- C8: when the encoded-image list produced by the resize collaborator is
empty, `generateImageData` returns absent (`Except.ok none`) — no partial
descriptor — whatever the layout mode and other arguments. -/
theorem c8_empty_encoded_list_returns_absent (env : GenEnv) (file : FileNode)
    (args : ISharpGatsbyImageArgs) (s : MetaState)
    (metadata : IImageMetadata) (s1 : MetaState) (isz : ImageSizes)
    (hmd : getImageMetadata env.menv file
        (args.placeholder.getD PlaceholderKind.dominantColor == PlaceholderKind.dominantColor) s
        = (metadata, s1))
    (hsz : env.calculateImageSizes args (args.layout.getD Layout.fixed) metadata = isz)
    (hempty : env.batchQueueImageResizing
        (planTransforms isz.sizes isz.aspectRatio (jsStrOr args.toFormat metadata.format)) = []) :
    (generateImageData env file args s).1 = Except.ok none := by
  simp only [generateImageData, hmd, hsz, hempty]
  simp

/-- Witness for C8 with `layout=fluid` and an empty resize result. -/
theorem c8_empty_encoded_list_returns_absent_witness :
    envEmptyResize.batchQueueImageResizing (planTransforms [2, 4] 2 "png") = [] ∧
    (generateImageData envEmptyResize fileA { layout := some Layout.fluid } {}).1 =
      Except.ok none :=
  ⟨rfl,
   c8_empty_encoded_list_returns_absent envEmptyResize fileA
     { layout := some Layout.fluid } {} _ _ _ rfl rfl rfl⟩

/-- C1 (amended): when the encoded-image list is non-empty but no entry of
the target-width list exactly equals the resolved presentation width, the
primary image reference is `undefined` and `generateImageData` throws a
`TypeError` while reading `primaryImage.src` for the descriptor's
`fallback.src` — it fails instead of returning a descriptor. -/
theorem c1_no_exact_width_match_throws (env : GenEnv) (file : FileNode)
    (args : ISharpGatsbyImageArgs) (s : MetaState)
    (metadata : IImageMetadata) (s1 : MetaState) (isz : ImageSizes)
    (imgs : List EncodedImage)
    (hmd : getImageMetadata env.menv file
        (args.placeholder.getD PlaceholderKind.dominantColor == PlaceholderKind.dominantColor) s
        = (metadata, s1))
    (hsz : env.calculateImageSizes args (args.layout.getD Layout.fixed) metadata = isz)
    (himgs : env.batchQueueImageResizing
        (planTransforms isz.sizes isz.aspectRatio (jsStrOr args.toFormat metadata.format)) = imgs)
    (hne : imgs ≠ [])
    (hnomatch : ∀ w ∈ isz.sizes, w ≠ isz.presentationWidth) :
    (generateImageData env file args s).1 = Except.error JsError.typeError := by
  have hidx : jsFindIndex (fun size => size == isz.presentationWidth) isz.sizes = none :=
    jsFindIndex_eq_none _ _ fun x hx => by
      simpa using hnomatch x hx
  have hie : imgs.isEmpty = false := by
    cases imgs with
    | nil => exact absurd rfl hne
    | cons a l => rfl
  simp only [generateImageData, hmd, hsz, himgs, hidx, hie, jsIndex]
  simp

/-- Counterexample to C1 as stated: a concrete call with one encoded image,
target widths `[1, 2]` and presentation width `3` throws (returns
`Except.error`) instead of returning a descriptor with undefined fields. -/
theorem c1_counterexample_throws_instead_of_descriptor :
    envNoMatch.batchQueueImageResizing (planTransforms [1, 2] 2 "png") ≠ [] ∧
    (∀ w ∈ ([1, 2] : List ℚ), w ≠ 3) ∧
    (generateImageData envNoMatch fileA {} {}).1 = Except.error JsError.typeError := by
  refine ⟨by simp [envNoMatch], by norm_num, ?_⟩
  norm_num [generateImageData, envNoMatch, metaEnvA, fileA, getImageMetadata, cacheGet,
    jsFindIndex, jsIndex, jsStrOr]

/-- Witness for the amended C1 at a second concrete input. -/
theorem c1_no_exact_width_match_throws_witness :
    ([imgA] : List EncodedImage) ≠ [] ∧ (∀ w ∈ ([1, 2] : List ℚ), w ≠ 3) ∧
    (generateImageData envNoMatch fileA { placeholder := some PlaceholderKind.none } {}).1 =
      Except.error JsError.typeError :=
  ⟨by simp, by norm_num,
   c1_no_exact_width_match_throws envNoMatch fileA
     { placeholder := some PlaceholderKind.none } {} _ _ _ _ rfl rfl rfl
     (by simp [envNoMatch]) (by norm_num [envNoMatch])⟩

/-- C3: with a found primary image, `generateImageData` sets the final
width/height by layout mode: `fixed` copies the primary encoded dimensions;
`fluid` yields `1 × 1/aspectRatio`; `constrained` yields `maxWidth` when a
nonzero one is given (else the primary encoded width, else `1`) and
`height = width / aspectRatio`. -/
theorem c3_layout_width_height (env : GenEnv) (file : FileNode)
    (args : ISharpGatsbyImageArgs) (s : MetaState)
    (metadata : IImageMetadata) (s1 : MetaState) (isz : ImageSizes)
    (imgs : List EncodedImage) (i : ℕ) (primary : EncodedImage) (a : ℚ)
    (hmd : getImageMetadata env.menv file
        (args.placeholder.getD PlaceholderKind.dominantColor == PlaceholderKind.dominantColor) s
        = (metadata, s1))
    (hsz : env.calculateImageSizes args (args.layout.getD Layout.fixed) metadata = isz)
    (himgs : env.batchQueueImageResizing
        (planTransforms isz.sizes isz.aspectRatio (jsStrOr args.toFormat metadata.format)) = imgs)
    (hidx : jsFindIndex (fun size => size == isz.presentationWidth) isz.sizes = some i)
    (hprim : imgs.get? i = some primary)
    (har : primary.aspectRatio = some a) (ha0 : a ≠ 0) :
    ∃ props : ISharpGatsbyImageData,
      (generateImageData env file args s).1 = Except.ok (some props) ∧
      (args.layout.getD Layout.fixed = Layout.fixed →
        props.width = some primary.width ∧ props.height = some primary.height) ∧
      (args.layout.getD Layout.fixed = Layout.fluid →
        props.width = some 1 ∧ props.height = some (1 / a)) ∧
      (args.layout.getD Layout.fixed = Layout.constrained →
        (∀ m, args.maxWidth = some m → m ≠ 0 →
           props.width = some m ∧ props.height = some (m / a)) ∧
        (args.maxWidth = none → primary.width ≠ 0 →
           props.width = some primary.width ∧ props.height = some (primary.width / a)) ∧
        (args.maxWidth = none → primary.width = 0 →
           props.width = some 1 ∧ props.height = some (1 / a))) := by
  have hie : imgs.isEmpty = false := by
    cases imgs with
    | nil => simp [List.get?] at hprim
    | cons x l => rfl
  simp only [generateImageData, hmd, hsz, himgs, hidx, hie, jsIndex, hprim,
    Bool.false_eq_true, if_false]
  refine ⟨_, rfl, ?_, ?_, ?_⟩
  · intro hl
    simp [hl]
  · intro hl
    simp [hl, jsNumOr, jsQOr, har, ha0]
  · intro hl
    refine ⟨?_, ?_, ?_⟩
    · intro m hm hm0
      simp [hl, hm, hm0, jsNumOr, jsQOr, har, ha0]
    · intro hm hw0
      simp [hl, hm, hw0, jsNumOr, jsQOr, har, ha0]
    · intro hm hw0
      simp [hl, hm, hw0, jsNumOr, jsQOr, har, ha0]

/-- The metadata record the sample environment computes on the probing path. -/
def mdA : IImageMetadata :=
  { width := 4, height := 2, format := "png", density := none, dominantColor := some "#000000" }

/-- A concrete primary encoded image with aspect ratio `3/2`. -/
def imgP : EncodedImage :=
  { src := "u2", width := 300, height := 200, aspectRatio := some (3/2), format := "png" }

/-- Environment whose sizing collaborator reports presentation width `300`
matching the single target width. -/
def envConstrained : GenEnv :=
  { menv := metaEnvA,
    calculateImageSizes := fun _ _ _ =>
      { sizes := [300], presentationWidth := 300, presentationHeight := 200, aspectRatio := 3/2 },
    batchQueueImageResizing := fun _ => [imgP],
    getSrcSet := fun _ => "srcset",
    getSizes := fun _ => "sizes",
    base64 := fun _ => "b64",
    traceSVG := fun _ => "svg" }

/-- Witness for C3: `layout=constrained`, `maxWidth=300`, primary aspect ratio
`3/2` yields `width=300`, `height=200`. -/
theorem c3_layout_width_height_witness :
    ∃ props : ISharpGatsbyImageData,
      (generateImageData envConstrained fileA
        { layout := some Layout.constrained, maxWidth := some 300 } {}).1 =
        Except.ok (some props) ∧
      props.width = some 300 ∧ props.height = some 200 := by
  obtain ⟨props, hok, _, _, hcon⟩ :=
    c3_layout_width_height envConstrained fileA
      { layout := some Layout.constrained, maxWidth := some 300 } {}
      mdA { cache := [("d0", mdA)], sizeProbes := 0, metadataProbes := 1, statsCalls := 1 }
      { sizes := [300], presentationWidth := 300, presentationHeight := 200, aspectRatio := 3/2 }
      [imgP] 0 imgP (3/2)
      rfl rfl rfl (by norm_num [jsFindIndex]) rfl rfl (by norm_num)
  obtain ⟨hw, hh⟩ := (hcon rfl).1 300 rfl (by norm_num)
  refine ⟨props, hok, hw, ?_⟩
  rw [hh]
  norm_num

/-- Hex conversion `rgbToHex` never yields the empty string. -/
theorem rgbToHex_ne_empty (r g b : ℕ) : rgbToHex r g b ≠ "" := by
  intro h
  have hlen : (rgbToHex r g b).length = 7 := by
    simp [rgbToHex, toHex2, String.length_append, String.length]
  rw [h] at hlen
  simp [String.length] at hlen

/-- With dominant-color computation enabled and a cache whose records all
carry a non-empty dominant color, the resolved record carries one too. -/
theorem getImageMetadata_dominant_nonempty (env : MetaEnv) (file : FileNode) (s : MetaState)
    (hwf : ∀ p ∈ s.cache, ∃ c, p.2.dominantColor = some c ∧ c ≠ "") :
    ∃ c, (getImageMetadata env file true s).1.dominantColor = some c ∧ c ≠ "" := by
  rcases h : cacheGet s.cache file.contentDigest with _ | m
  · rw [getImageMetadata_cache_miss env file s h]
    rcases hst : env.probeStats file.absolutePath with _ | rgb
    · exact ⟨"#000000", by simp [probedMetadata, hst], by simp⟩
    · exact ⟨rgbToHex rgb.r rgb.g rgb.b, by simp [probedMetadata, hst],
        rgbToHex_ne_empty _ _ _⟩
  · cases ht : env.nodeEnvIsTest with
    | true =>
      have hmiss : getImageMetadata env file true s =
          (probedMetadata env file,
           { s with cache := (file.contentDigest, probedMetadata env file) :: s.cache,
                    metadataProbes := s.metadataProbes + 1,
                    statsCalls := s.statsCalls + 1 }) := by
        unfold getImageMetadata probedMetadata
        rw [h, ht]
        rfl
      rw [hmiss]
      rcases hst : env.probeStats file.absolutePath with _ | rgb
      · exact ⟨"#000000", by simp [probedMetadata, hst], by simp⟩
      · exact ⟨rgbToHex rgb.r rgb.g rgb.b, by simp [probedMetadata, hst],
          rgbToHex_ne_empty _ _ _⟩
    | false =>
      rw [getImageMetadata_cache_hit env file s m h ht]
      rw [cacheGet] at h
      rcases hfind : List.find? (fun p => p.1 == file.contentDigest) s.cache with _ | p
      · rw [hfind] at h
        cases h
      · rw [hfind] at h
        have hp : p.2 = m := by simpa using h
        obtain ⟨c, hc, hcne⟩ := hwf p (List.mem_of_find?_eq_some hfind)
        exact ⟨c, hp ▸ hc, hcne⟩

/-- C5: for any single successful `generateImageData` call, at most one of
`backgroundColor` and the placeholder payload is populated, per the selected
strategy: `blurred` and `tracedSVG` set only the placeholder payload,
`dominantColor` (explicit or defaulted) sets only `backgroundColor`, and
`none` yields neither.  The cache is assumed well-formed (every stored record
carries a non-empty dominant color), which every reachable cache satisfies. -/
theorem c5_placeholder_mutual_exclusivity (env : GenEnv) (file : FileNode)
    (args : ISharpGatsbyImageArgs) (s : MetaState)
    (metadata : IImageMetadata) (s1 : MetaState) (isz : ImageSizes)
    (imgs : List EncodedImage) (i : ℕ) (primary : EncodedImage)
    (hwf : ∀ p ∈ s.cache, ∃ c, p.2.dominantColor = some c ∧ c ≠ "")
    (hmd : getImageMetadata env.menv file
        (args.placeholder.getD PlaceholderKind.dominantColor == PlaceholderKind.dominantColor) s
        = (metadata, s1))
    (hsz : env.calculateImageSizes args (args.layout.getD Layout.fixed) metadata = isz)
    (himgs : env.batchQueueImageResizing
        (planTransforms isz.sizes isz.aspectRatio (jsStrOr args.toFormat metadata.format)) = imgs)
    (hidx : jsFindIndex (fun size => size == isz.presentationWidth) isz.sizes = some i)
    (hprim : imgs.get? i = some primary) :
    ∃ props : ISharpGatsbyImageData,
      (generateImageData env file args s).1 = Except.ok (some props) ∧
      ¬(props.backgroundColor.isSome ∧ props.placeholder.isSome) ∧
      (args.placeholder = some PlaceholderKind.blurred →
        props.placeholder.isSome ∧ props.backgroundColor = none) ∧
      (args.placeholder = some PlaceholderKind.tracedSVG →
        props.placeholder.isSome ∧ props.backgroundColor = none) ∧
      (args.placeholder.getD PlaceholderKind.dominantColor = PlaceholderKind.dominantColor →
        props.placeholder = none ∧ props.backgroundColor.isSome) ∧
      (args.placeholder = some PlaceholderKind.none →
        props.placeholder = none ∧ props.backgroundColor = none) := by
  have hie : imgs.isEmpty = false := by
    cases imgs with
    | nil => simp [List.get?] at hprim
    | cons x l => rfl
  simp only [generateImageData, hmd, hsz, himgs, hidx, hie, jsIndex, hprim,
    Bool.false_eq_true, if_false]
  refine ⟨_, rfl, ?_, ?_, ?_, ?_, ?_⟩
  · rcases hpk : args.placeholder with _ | pk
    · rcases hdc : metadata.dominantColor with _ | c
      · rcases hl : args.layout.getD Layout.fixed <;> cases hwp : args.webP <;>
          simp [hpk, hdc, hl, hwp]
      · rcases hl : args.layout.getD Layout.fixed <;> cases hwp : args.webP <;>
          cases hce : c == "" <;> simp [hpk, hdc, hl, hwp, hce]
    · cases pk
      case tracedSVG =>
        rcases hl : args.layout.getD Layout.fixed <;> cases hwp : args.webP <;>
          simp [hpk, hl, hwp]
      case blurred =>
        rcases hl : args.layout.getD Layout.fixed <;> cases hwp : args.webP <;>
          simp [hpk, hl, hwp]
      case dominantColor =>
        rcases hdc : metadata.dominantColor with _ | c
        · rcases hl : args.layout.getD Layout.fixed <;> cases hwp : args.webP <;>
            simp [hpk, hdc, hl, hwp]
        · rcases hl : args.layout.getD Layout.fixed <;> cases hwp : args.webP <;>
            cases hce : c == "" <;> simp [hpk, hdc, hl, hwp, hce]
      case none =>
        rcases hdc : metadata.dominantColor with _ | c
        · rcases hl : args.layout.getD Layout.fixed <;> cases hwp : args.webP <;>
            simp [hpk, hdc, hl, hwp]
        · rcases hl : args.layout.getD Layout.fixed <;> cases hwp : args.webP <;>
            cases hce : c == "" <;> simp [hpk, hdc, hl, hwp, hce]
  · intro hb
    rcases hl : args.layout.getD Layout.fixed <;> cases hwp : args.webP <;>
      simp [hb, hl, hwp]
  · intro hb
    rcases hl : args.layout.getD Layout.fixed <;> cases hwp : args.webP <;>
      simp [hb, hl, hwp]
  · intro hd
    have hbool : (args.placeholder.getD PlaceholderKind.dominantColor ==
        PlaceholderKind.dominantColor) = true := by simp [hd]
    rw [hbool] at hmd
    obtain ⟨c, hc, hcne⟩ := getImageMetadata_dominant_nonempty env.menv file s hwf
    rw [hmd] at hc
    simp only [] at hc
    have hce : (c == "") = false := by simp [hcne]
    rcases hl : args.layout.getD Layout.fixed <;> cases hwp : args.webP <;>
      simp [hd, hl, hwp, hc, hce]
  · intro hn
    have hbool : (args.placeholder.getD PlaceholderKind.dominantColor ==
        PlaceholderKind.dominantColor) = false := by simp [hn]
    rw [hbool] at hmd
    have hdc : metadata.dominantColor = none := by
      have h2 := congrArg (fun p => p.1.dominantColor) hmd
      simpa [getImageMetadata] using h2.symm
    rcases hl : args.layout.getD Layout.fixed <;> cases hwp : args.webP <;>
      simp [hn, hl, hwp, hdc]

/-- Witness for C5: `placeholder=blurred` populates only the placeholder
payload on a successful call. -/
theorem c5_placeholder_mutual_exclusivity_witness :
    ∃ props : ISharpGatsbyImageData,
      (generateImageData envConstrained fileA
        { placeholder := some PlaceholderKind.blurred } {}).1 = Except.ok (some props) ∧
      props.placeholder.isSome ∧ props.backgroundColor = none := by
  obtain ⟨props, hok, _, hblur, _, _, _⟩ :=
    c5_placeholder_mutual_exclusivity envConstrained fileA
      { placeholder := some PlaceholderKind.blurred } {}
      { width := 4, height := 2, format := "png" }
      { cache := [], sizeProbes := 1, metadataProbes := 0, statsCalls := 0 }
      { sizes := [300], presentationWidth := 300, presentationHeight := 200, aspectRatio := 3/2 }
      [imgP] 0 imgP
      (by simp) rfl rfl rfl (by norm_num [jsFindIndex]) rfl
  exact ⟨props, hok, hblur rfl⟩
